import Mathlib

/-
  Verification of the streaming resampling adapter (package resample,
  file resample.go) against its natural-language specification.

  The adapter wraps an opaque sample-rate-conversion engine (libsoxr).
  We embed the adapter's own logic shallowly: the engine and the sink
  are opaque collaborators, so every engine call is modelled by the
  values the engine reports back (error message, frames read, frames
  produced) and every sink write by the values the sink reports back
  (bytes accepted, error).  Go float64 rate arithmetic is modelled over
  the rationals; Go integer division and modulo on non-negative values
  coincide with Nat division and modulo.
-/

namespace Resample

/-- Error string returned by Write, Reset and Close when the engine
handle has been released (the spec calls this condition AdapterClosed). -/
def nilResamplerErr : String := "soxr resampler is nil"

/-- Error string for input that does not contain one whole frame
(the spec calls this IncompleteFrame). -/
def incompleteFrameErr : String := "Incomplete input frame data"

/-- Error string for input too small to yield any output frame
(the spec calls this InsufficientInput). -/
def insufficientInputErr : String := "Not enough input to generate output"

/-- Bits per byte, constant byteLen of resample.go. -/
def byteLen : ℕ := 8

/-- The Resampler state visible to the adapter logic.  `isOpen` models
`r.resampler != nil` (the engine handle being present); `dest` is an
opaque identifier for the current destination writer. -/
structure Resampler where
  isOpen : Bool
  inRate : ℚ
  outRate : ℚ
  channels : ℕ
  frameSize : ℕ
  stream : Bool
  dest : ℕ
deriving DecidableEq

/-- Go conversion of a C size_t value to Go int (two's complement,
64 bits): values below 2^63 map to themselves, larger values wrap to
negative. -/
def goIntOfSizeT (x : ℕ) : ℤ :=
  if x < 2 ^ 63 then (x : ℤ) else (x : ℤ) - 2 ^ 64

/-- What the engine reports back from one soxr_process call inside
Write: an error message (if any), the size_t written through `read`
(input frames consumed) and through `done` (output frames produced). -/
structure EngineResp where
  errMsg : Option String
  read : ℕ
  done : ℕ
deriving DecidableEq

/-- What the destination writer reports back from one Write call on it:
bytes accepted and an error (if any). -/
structure SinkResp where
  written : ℕ
  err : Option String
deriving DecidableEq

/-- Result of the adapter's Write: the returned consumed-byte count
`n` (a Go int), the returned error, and the number of input bytes
actually handed to the engine (the length of dataIn; 0 when the call
errors out before reaching the engine). -/
structure WriteOut where
  n : ℤ
  err : Option String
  submitted : ℕ
deriving DecidableEq

/-- The whole-frame prefix length of an input buffer: Write drops the
trailing fragment `len(p) % (frameSize*channels)`. -/
def wholeLen (r : Resampler) (plen : ℕ) : ℕ :=
  plen - plen % (r.frameSize * r.channels)

/-- framesIn as computed by Write: `len(p) / r.frameSize / r.channels`
on the fragment-stripped buffer. -/
def framesInOf (r : Resampler) (plen : ℕ) : ℕ :=
  wholeLen r plen / r.frameSize / r.channels

/-- framesOut as computed by Write:
`int(float64(framesIn) * (r.outRate / r.inRate))`, i.e. the floor of
the exact product for non-negative values. -/
def framesOutOf (r : Resampler) (framesIn : ℕ) : ℕ :=
  (⌊(framesIn : ℚ) * (r.outRate / r.inRate)⌋).toNat

/-- The effective frame count passed to soxr_process: in stream mode
the true count, otherwise its bitwise complement `^framesIn`
(Go bitwise NOT, i.e. -(framesIn+1)), which signals end of input. -/
def effFramesIn (r : Resampler) (framesIn : ℕ) : ℤ :=
  if r.stream then (framesIn : ℤ) else -((framesIn : ℤ) + 1)

/-- The scaled consumed-byte count
`int(float64(written) * (r.inRate / r.outRate))`. -/
def scaledConsumed (r : Resampler) (written : ℕ) : ℤ :=
  ⌊(written : ℚ) * (r.inRate / r.outRate)⌋

/-- Shallow embedding of (*Resampler).Write from resample.go.  The
engine's behaviour in the soxr_process call is supplied by `eng`; the
destination writer's behaviour is supplied by `sink`. -/
def write (r : Resampler) (plen : ℕ) (eng : EngineResp) (sink : SinkResp) : WriteOut :=
  if r.isOpen = false then ⟨0, some nilResamplerErr, 0⟩
  else if plen = 0 then ⟨0, none, 0⟩
  else
    let framesIn := framesInOf r plen
    if framesIn = 0 then ⟨0, some incompleteFrameErr, 0⟩
    else
      let framesOut := framesOutOf r framesIn
      if framesOut = 0 then ⟨0, some insufficientInputErr, 0⟩
      else
        match eng.errMsg with
        | some m => ⟨0, some m, wholeLen r plen⟩
        | none =>
          if sink.err = none ∧
              ((effFramesIn r framesIn = goIntOfSizeT eng.read ∧
                (framesOut : ℤ) = goIntOfSizeT eng.done) ∨ r.stream = true)
          then ⟨(wholeLen r plen : ℤ), sink.err, wholeLen r plen⟩
          else ⟨scaledConsumed r sink.written, sink.err, wholeLen r plen⟩

/-- One step of an engine/sink oracle for flush: what the engine and
then the sink would report on the n-th soxr_process call made with no
input. -/
structure FlushStep where
  engErr : Option String
  done : ℕ
  sinkErr : Option String
deriving DecidableEq

/-- Result of flush: its returned error, how many soxr_process calls
it made, and how many output bytes it forwarded to the sink. -/
structure FlushOut where
  err : Option String
  calls : ℕ
  drainedBytes : ℕ
deriving DecidableEq

/-- The fixed output capacity (in frames) flush passes to
soxr_process: `framesOut := 40960` in resample.go. -/
def flushCap : ℕ := 40960

/-- Shallow embedding of (*Resampler).flush from resample.go: a single
soxr_process call with no input and a 40960-frame output buffer,
whose produced bytes are written to the destination. -/
def flush (r : Resampler) (steps : ℕ → FlushStep) : FlushOut :=
  match (steps 0).engErr with
  | some m => ⟨some m, 1, 0⟩
  | none => ⟨(steps 0).sinkErr, 1, (steps 0).done * r.channels * r.frameSize⟩

/-- Result of Close: its returned error, the successor state, and
whether this call released the engine (called soxr_delete). -/
structure CloseOut where
  err : Option String
  st : Resampler
  released : Bool
deriving DecidableEq

/-- Shallow embedding of (*Resampler).Close from resample.go. -/
def close (r : Resampler) (steps : ℕ → FlushStep) : CloseOut :=
  if r.isOpen = false then ⟨some nilResamplerErr, r, false⟩
  else
    let ferr := if r.stream then (flush r steps).err else none
    ⟨ferr, { r with isOpen := false }, true⟩

/-- Result of Reset: its returned error, the successor state, and
whether this call cleared the engine's buffered state (called
soxr_clear). -/
structure ResetOut where
  err : Option String
  st : Resampler
  cleared : Bool
deriving DecidableEq

/-- Shallow embedding of (*Resampler).Reset from resample.go: after
the open check, flush in stream mode, then replace the destination and
clear the engine state, returning the flush error (if any). -/
def reset (r : Resampler) (w : ℕ) (steps : ℕ → FlushStep) : ResetOut :=
  if r.isOpen = false then ⟨some nilResamplerErr, r, false⟩
  else
    let ferr := if r.stream then (flush r steps).err else none
    ⟨ferr, { r with dest := w }, true⟩

/-- Shallow embedding of the parameter-validation prefix of New from
resample.go (everything before the soxr_create call).  `.ok size`
means validation passed with derived frame size `size` and the code
goes on to allocate the engine; `.error msg` means New returns that
error without allocating any engine resource. -/
def newValidate (writerIsNil : Bool) (inputRate outputRate : ℚ)
    (channels format quality : ℤ) : Except String ℕ :=
  if writerIsNil then .error "io.Writer is nil"
  else if inputRate ≤ 0 ∨ outputRate ≤ 0 then .error "Invalid input or output sampling rates"
  else if channels = 0 then .error "Invalid channels number"
  else if quality < 0 ∨ quality > 6 then .error "Invalid quality setting"
  else if format = 1 then .ok (64 / byteLen)
  else if format = 0 ∨ format = 2 then .ok (32 / byteLen)
  else if format = 3 then .ok (16 / byteLen)
  else .error "Invalid format setting"

/-! ### Arithmetic facts about the frame accounting -/

/-- The whole-frame prefix is the multiple of the frame size below plen. -/
theorem wholeLen_eq (r : Resampler) (plen : ℕ) :
    wholeLen r plen = r.frameSize * r.channels * (plen / (r.frameSize * r.channels)) := by
  have h := Nat.mod_add_div plen (r.frameSize * r.channels)
  unfold wholeLen
  omega

/-- framesIn is the number of whole frames in the input buffer. -/
theorem framesInOf_eq (r : Resampler) (plen : ℕ)
    (hfs : 0 < r.frameSize) (hch : 0 < r.channels) :
    framesInOf r plen = plen / (r.frameSize * r.channels) := by
  unfold framesInOf
  rw [wholeLen_eq, Nat.div_div_eq_div_mul, mul_comm r.frameSize r.channels,
    Nat.mul_div_cancel_left _ (Nat.mul_pos hch hfs)]

/-- framesIn whole frames make up exactly the whole-frame prefix. -/
theorem framesInOf_mul (r : Resampler) (plen : ℕ)
    (hfs : 0 < r.frameSize) (hch : 0 < r.channels) :
    framesInOf r plen * (r.frameSize * r.channels) = wholeLen r plen := by
  rw [framesInOf_eq r plen hfs hch, wholeLen_eq, mul_comm]

/-- framesOut underestimates the exact rate-scaled frame count. -/
theorem framesOutOf_le (r : Resampler) (framesIn : ℕ)
    (hir : 0 < r.inRate) (hor : 0 < r.outRate) :
    (framesOutOf r framesIn : ℚ) ≤ (framesIn : ℚ) * (r.outRate / r.inRate) := by
  unfold framesOutOf
  have hx : (0 : ℚ) ≤ (framesIn : ℚ) * (r.outRate / r.inRate) := by positivity
  have hfl : (0 : ℤ) ≤ ⌊(framesIn : ℚ) * (r.outRate / r.inRate)⌋ :=
    Int.floor_nonneg.mpr hx
  have h3 : (((⌊(framesIn : ℚ) * (r.outRate / r.inRate)⌋.toNat : ℤ)) : ℚ) ≤
      (framesIn : ℚ) * (r.outRate / r.inRate) := by
    rw [Int.toNat_of_nonneg hfl]
    exact Int.floor_le _
  exact_mod_cast h3

/-- The scaled consumed-byte count never exceeds the whole-frame input
length, given that the engine produced at most the requested framesOut
frames and the sink accepted at most the bytes it was offered. -/
theorem scaledConsumed_le (r : Resampler) (plen : ℕ) (written done : ℕ)
    (hfs : 0 < r.frameSize) (hch : 0 < r.channels)
    (hir : 0 < r.inRate) (hor : 0 < r.outRate)
    (hdone : done ≤ framesOutOf r (framesInOf r plen))
    (hw : written ≤ done * r.channels * r.frameSize) :
    scaledConsumed r written ≤ (wholeLen r plen : ℤ) := by
  unfold scaledConsumed
  have key : (written : ℚ) * (r.inRate / r.outRate) ≤ (wholeLen r plen : ℚ) := by
    have h1 : (written : ℚ) ≤ (framesOutOf r (framesInOf r plen) : ℚ) *
        ((r.channels : ℚ) * (r.frameSize : ℚ)) := by
      calc (written : ℚ) ≤ ((done * r.channels * r.frameSize : ℕ) : ℚ) := by
            exact_mod_cast hw
        _ = (done : ℚ) * ((r.channels : ℚ) * (r.frameSize : ℚ)) := by
            push_cast; ring
        _ ≤ (framesOutOf r (framesInOf r plen) : ℚ) *
            ((r.channels : ℚ) * (r.frameSize : ℚ)) := by
            have : (done : ℚ) ≤ (framesOutOf r (framesInOf r plen) : ℚ) := by
              exact_mod_cast hdone
            have hpos : (0 : ℚ) ≤ (r.channels : ℚ) * (r.frameSize : ℚ) := by positivity
            exact mul_le_mul_of_nonneg_right this hpos
    have h2 : (framesOutOf r (framesInOf r plen) : ℚ) ≤
        (framesInOf r plen : ℚ) * (r.outRate / r.inRate) :=
      framesOutOf_le r _ hir hor
    have hr : (0 : ℚ) < r.inRate / r.outRate := by positivity
    calc (written : ℚ) * (r.inRate / r.outRate)
        ≤ ((framesInOf r plen : ℚ) * (r.outRate / r.inRate) *
            ((r.channels : ℚ) * (r.frameSize : ℚ))) * (r.inRate / r.outRate) := by
          apply mul_le_mul_of_nonneg_right _ hr.le
          exact h1.trans (mul_le_mul_of_nonneg_right h2 (by positivity))
      _ = (framesInOf r plen : ℚ) * ((r.channels : ℚ) * (r.frameSize : ℚ)) := by
          field_simp
          ring
      _ = (wholeLen r plen : ℚ) := by
          rw [← framesInOf_mul r plen hfs hch]
          push_cast; ring
  calc ⌊(written : ℚ) * (r.inRate / r.outRate)⌋ ≤ ⌊(wholeLen r plen : ℚ)⌋ :=
        Int.floor_le_floor key
    _ = (wholeLen r plen : ℤ) := Int.floor_natCast _

/-! ### How Write evaluates once validation passes -/

/-- When the adapter is open, the input holds at least one whole frame,
the output estimate is positive and the engine reports no error, Write
reduces to the accounting decision between the full whole-frame length
and the scaled consumed count. -/
theorem write_eq_of_valid (r : Resampler) (plen : ℕ) (eng : EngineResp) (sink : SinkResp)
    (hopen : r.isOpen = true) (hin : framesInOf r plen ≠ 0)
    (hout : framesOutOf r (framesInOf r plen) ≠ 0) (heng : eng.errMsg = none) :
    write r plen eng sink =
      if sink.err = none ∧
          ((effFramesIn r (framesInOf r plen) = goIntOfSizeT eng.read ∧
            (framesOutOf r (framesInOf r plen) : ℤ) = goIntOfSizeT eng.done) ∨
            r.stream = true)
      then ⟨(wholeLen r plen : ℤ), sink.err, wholeLen r plen⟩
      else ⟨scaledConsumed r sink.written, sink.err, wholeLen r plen⟩ := by
  have hp : plen ≠ 0 := by
    intro h
    exact hin (by simp [framesInOf, wholeLen, h])
  simp only [write, hopen, hp, hin, hout, heng, Bool.true_eq_false, if_false, if_neg hp,
    if_neg hin, if_neg hout]

/-- In stream mode with a successful sink write, Write returns the full
whole-frame length, whatever the engine reported through read and done. -/
theorem write_stream_ok (r : Resampler) (plen : ℕ) (eng : EngineResp) (sink : SinkResp)
    (hopen : r.isOpen = true) (hin : framesInOf r plen ≠ 0)
    (hout : framesOutOf r (framesInOf r plen) ≠ 0) (heng : eng.errMsg = none)
    (hstream : r.stream = true) (hsink : sink.err = none) :
    write r plen eng sink = ⟨(wholeLen r plen : ℤ), none, wholeLen r plen⟩ := by
  rw [write_eq_of_valid r plen eng sink hopen hin hout heng]
  rw [if_pos ⟨hsink, Or.inr hstream⟩, hsink]

/-- In non-stream mode the frame count passed to the engine is the
bitwise complement of framesIn, which is negative, so it never equals a
sanely-reported read count and Write returns the scaled consumed count. -/
theorem write_nonstream_scaled (r : Resampler) (plen : ℕ) (eng : EngineResp) (sink : SinkResp)
    (hopen : r.isOpen = true) (hin : framesInOf r plen ≠ 0)
    (hout : framesOutOf r (framesInOf r plen) ≠ 0) (heng : eng.errMsg = none)
    (hstream : r.stream = false) (hread : eng.read < 2 ^ 63) :
    write r plen eng sink = ⟨scaledConsumed r sink.written, sink.err, wholeLen r plen⟩ := by
  rw [write_eq_of_valid r plen eng sink hopen hin hout heng]
  have hne : effFramesIn r (framesInOf r plen) ≠ goIntOfSizeT eng.read := by
    unfold effFramesIn goIntOfSizeT
    rw [hstream, if_pos hread]
    simp only [Bool.false_eq_true, if_false]
    intro h
    omega
  rw [if_neg]
  rintro ⟨-, (⟨h1, -⟩ | h2)⟩
  · exact hne h1
  · rw [hstream] at h2
    exact Bool.false_ne_true h2

/-- In stream mode with a failing sink write, Write falls back to the
scaled consumed count and propagates the sink error. -/
theorem write_stream_sinkfail (r : Resampler) (plen : ℕ) (eng : EngineResp) (sink : SinkResp)
    (hopen : r.isOpen = true) (hin : framesInOf r plen ≠ 0)
    (hout : framesOutOf r (framesInOf r plen) ≠ 0) (heng : eng.errMsg = none)
    (hsink : sink.err ≠ none) :
    write r plen eng sink = ⟨scaledConsumed r sink.written, sink.err, wholeLen r plen⟩ := by
  rw [write_eq_of_valid r plen eng sink hopen hin hout heng]
  rw [if_neg]
  rintro ⟨h1, -⟩
  exact hsink h1

/-! ### The claims -/

/-- Concrete adapter used in counterexamples and witnesses: open, mono
16-bit, 8000 Hz to 4000 Hz, non-stream mode. -/
def rNs : Resampler := ⟨true, 8000, 4000, 1, 2, false, 0⟩

/-- Concrete adapter used in counterexamples and witnesses: open, mono
16-bit, 8000 Hz to 8000 Hz, stream mode. -/
def rSt : Resampler := ⟨true, 8000, 8000, 1, 2, true, 0⟩

/-- C1 is false on the code: on the non-stream adapter rNs, Write of 6
bytes (3 whole frames) where the engine reports it read all 3 submitted
frames and produced 1 frame (the whole framesOut estimate), and the sink
accepts all 2 produced bytes without error, returns a consumed count of
4, not the entire submitted whole-frame length 6.  (In non-stream mode
the code compares the engine's read count against the bitwise-negated
frame count, so the full-consumption branch is never taken.) -/
theorem c1_counterexample :
    framesInOf rNs 6 = 3 ∧ framesOutOf rNs 3 = 1 ∧ wholeLen rNs 6 = 6 ∧
    write rNs 6 ⟨none, 3, 1⟩ ⟨2, none⟩ = ⟨4, none, 6⟩ ∧ (4 : ℤ) ≠ 6 := by
  refine ⟨by decide, ?_, by decide, ?_, by decide⟩
  · simp only [framesOutOf, rNs]
    norm_num
  · simp only [write, framesInOf, wholeLen, framesOutOf, effFramesIn, scaledConsumed,
      goIntOfSizeT, rNs]
    norm_num

/-- C1 amended: the full-input-length report happens exactly in stream
mode.  In stream mode, whenever the sink write succeeds, Write reports
the entire submitted whole-frame byte length as consumed (in particular
when the engine consumed all submitted frames and the sink accepted all
produced bytes); in non-stream mode (in particular whenever the engine
reports it read fewer input frames than submitted), Write instead
reports the sink-accepted output byte count scaled by
inputRate/outputRate. -/
theorem c1_amended (r : Resampler) (plen : ℕ) (eng : EngineResp) (sink : SinkResp)
    (hopen : r.isOpen = true) (hin : framesInOf r plen ≠ 0)
    (hout : framesOutOf r (framesInOf r plen) ≠ 0) (heng : eng.errMsg = none)
    (hread : eng.read < 2 ^ 63) :
    (r.stream = true → sink.err = none →
      (write r plen eng sink).n = (wholeLen r plen : ℤ)) ∧
    (r.stream = false →
      (write r plen eng sink).n =
        ⌊(sink.written : ℚ) * (r.inRate / r.outRate)⌋) := by
  constructor
  · intro hstream hsink
    rw [write_stream_ok r plen eng sink hopen hin hout heng hstream hsink]
  · intro hstream
    rw [write_nonstream_scaled r plen eng sink hopen hin hout heng hstream hread]
    rfl

/-- Witness for the amended C1 at the concrete stream adapter rSt:
4 input bytes, engine reads 1 of the 2 submitted frames, sink accepts
2 bytes, Write still reports all 4 bytes consumed. -/
theorem c1_amended_witness :
    (write rSt 4 ⟨none, 1, 1⟩ ⟨2, none⟩).n = (wholeLen rSt 4 : ℤ) :=
  (c1_amended rSt 4 ⟨none, 1, 1⟩ ⟨2, none⟩ rfl (by decide)
    (by simp only [framesOutOf, framesInOf, wholeLen, rSt]; norm_num) rfl
    (by decide)).1 rfl rfl

/-- C10: in stream mode, a Write whose sink write succeeds reports the
full whole-frame input length as consumed whatever the engine reported
through read and done; the scaled accounting is returned exactly in
non-stream mode or when the sink write fails. -/
theorem c10_stream_accounting (r : Resampler) (plen : ℕ) (eng : EngineResp) (sink : SinkResp)
    (hopen : r.isOpen = true) (hin : framesInOf r plen ≠ 0)
    (hout : framesOutOf r (framesInOf r plen) ≠ 0) (heng : eng.errMsg = none)
    (hread : eng.read < 2 ^ 63) :
    (r.stream = true → sink.err = none →
      write r plen eng sink = ⟨(wholeLen r plen : ℤ), none, wholeLen r plen⟩) ∧
    (r.stream = true → sink.err ≠ none →
      write r plen eng sink = ⟨scaledConsumed r sink.written, sink.err, wholeLen r plen⟩) ∧
    (r.stream = false →
      write r plen eng sink = ⟨scaledConsumed r sink.written, sink.err, wholeLen r plen⟩) := by
  refine ⟨?_, ?_, ?_⟩
  · intro hstream hsink
    exact write_stream_ok r plen eng sink hopen hin hout heng hstream hsink
  · intro _ hsink
    exact write_stream_sinkfail r plen eng sink hopen hin hout heng hsink
  · intro hstream
    exact write_nonstream_scaled r plen eng sink hopen hin hout heng hstream hread

/-- Witness for C10 at the concrete stream adapter rSt: engine read 1
of 2 submitted frames and produced 1 of 2 estimated frames, sink
accepted everything, Write reports the full 4 bytes consumed. -/
theorem c10_witness :
    write rSt 4 ⟨none, 1, 1⟩ ⟨2, none⟩ = ⟨(wholeLen rSt 4 : ℤ), none, wholeLen rSt 4⟩ :=
  (c10_stream_accounting rSt 4 ⟨none, 1, 1⟩ ⟨2, none⟩ rfl (by decide)
    (by simp only [framesOutOf, framesInOf, wholeLen, rSt]; norm_num) rfl
    (by decide)).1 rfl rfl

/-- C5: Write never submits a partial frame and never counts fragment
bytes as consumed.  Whatever the engine and sink report (as long as the
engine produces at most the requested framesOut frames and the sink
accepts at most the bytes it was offered), the byte count handed to the
engine is 0 or exactly the whole-frame prefix length, the returned
consumed-byte count is at most that prefix length, and once the input
passes validation the submitted byte count is exactly the whole-frame
prefix length. -/
theorem c5_fragment_policy (r : Resampler) (plen : ℕ) (eng : EngineResp) (sink : SinkResp)
    (hopen : r.isOpen = true) (hfs : 0 < r.frameSize) (hch : 0 < r.channels)
    (hir : 0 < r.inRate) (hor : 0 < r.outRate)
    (hdone : eng.done ≤ framesOutOf r (framesInOf r plen))
    (hw : sink.written ≤ eng.done * r.channels * r.frameSize) :
    ((write r plen eng sink).submitted = 0 ∨
      (write r plen eng sink).submitted = plen - plen % (r.frameSize * r.channels)) ∧
    (write r plen eng sink).n ≤ ((plen - plen % (r.frameSize * r.channels) : ℕ) : ℤ) ∧
    (framesInOf r plen ≠ 0 → framesOutOf r (framesInOf r plen) ≠ 0 →
      (write r plen eng sink).submitted = plen - plen % (r.frameSize * r.channels)) := by
  have hwl : wholeLen r plen = plen - plen % (r.frameSize * r.channels) := rfl
  rw [← hwl]
  by_cases hp : plen = 0
  · have hw0 : write r plen eng sink = ⟨0, none, 0⟩ := by simp [write, hopen, hp]
    rw [hw0]
    exact ⟨Or.inl rfl, Int.natCast_nonneg _,
      fun hi _ => absurd (by simp [framesInOf, wholeLen, hp]) hi⟩
  · by_cases hin : framesInOf r plen = 0
    · have hw0 : write r plen eng sink = ⟨0, some incompleteFrameErr, 0⟩ := by
        simp [write, hopen, hp, hin]
      rw [hw0]
      exact ⟨Or.inl rfl, Int.natCast_nonneg _, fun hi _ => absurd hin hi⟩
    · by_cases hout : framesOutOf r (framesInOf r plen) = 0
      · have hw0 : write r plen eng sink = ⟨0, some insufficientInputErr, 0⟩ := by
          simp [write, hopen, hp, hin, hout]
        rw [hw0]
        exact ⟨Or.inl rfl, Int.natCast_nonneg _, fun _ ho => absurd hout ho⟩
      · cases heng : eng.errMsg with
        | some m =>
            have hw0 : write r plen eng sink = ⟨0, some m, wholeLen r plen⟩ := by
              simp [write, hopen, hp, hin, hout, heng]
            rw [hw0]
            exact ⟨Or.inr rfl, Int.natCast_nonneg _, fun _ _ => rfl⟩
        | none =>
            rw [write_eq_of_valid r plen eng sink hopen hin hout heng]
            split
            · exact ⟨Or.inr rfl, le_refl _, fun _ _ => rfl⟩
            · exact ⟨Or.inr rfl,
                scaledConsumed_le r plen sink.written eng.done hfs hch hir hor hdone hw,
                fun _ _ => rfl⟩

/-- Witness for C5 at the concrete stream adapter rSt with a 5-byte
buffer: only the 4 whole-frame bytes are submitted and the returned
count 4 never includes the fragment byte. -/
theorem c5_witness :
    ((write rSt 5 ⟨none, 2, 2⟩ ⟨4, none⟩).submitted = 0 ∨
      (write rSt 5 ⟨none, 2, 2⟩ ⟨4, none⟩).submitted = 5 - 5 % (rSt.frameSize * rSt.channels)) ∧
    (write rSt 5 ⟨none, 2, 2⟩ ⟨4, none⟩).n ≤ ((5 - 5 % (rSt.frameSize * rSt.channels) : ℕ) : ℤ) ∧
    (framesInOf rSt 5 ≠ 0 → framesOutOf rSt (framesInOf rSt 5) ≠ 0 →
      (write rSt 5 ⟨none, 2, 2⟩ ⟨4, none⟩).submitted = 5 - 5 % (rSt.frameSize * rSt.channels)) :=
  c5_fragment_policy rSt 5 ⟨none, 2, 2⟩ ⟨4, none⟩ rfl (by decide) (by decide)
    (by norm_num [rSt]) (by norm_num [rSt])
    (by simp only [framesOutOf, framesInOf, wholeLen, rSt]; norm_num)
    (by decide)

/-- C6: with whole-frame input present, Write computes the output
estimate as the floor of framesIn times outputRate/inputRate, and when
that estimate is 0 it fails with the InsufficientInput error and
consumes 0 bytes (submitting nothing to the engine). -/
theorem c6_insufficient_input (r : Resampler) (plen : ℕ) (eng : EngineResp) (sink : SinkResp)
    (hopen : r.isOpen = true) (hin : framesInOf r plen ≠ 0)
    (hout : (⌊(framesInOf r plen : ℚ) * (r.outRate / r.inRate)⌋).toNat = 0) :
    write r plen eng sink = ⟨0, some insufficientInputErr, 0⟩ := by
  have hp : plen ≠ 0 := fun h => hin (by simp [framesInOf, wholeLen, h])
  have hout' : framesOutOf r (framesInOf r plen) = 0 := hout
  simp [write, hopen, hp, hin, hout']

/-- Concrete adapter for the InsufficientInput scenario: open, stereo
16-bit, 8000 Hz to 4000 Hz (spec scenario 3). -/
def rDn : Resampler := ⟨true, 8000, 4000, 2, 2, false, 0⟩

/-- Witness for C6: one stereo 16-bit frame (4 bytes) into the 2:1
downsampler fails with InsufficientInput and consumes 0 bytes. -/
theorem c6_witness :
    write rDn 4 ⟨none, 0, 0⟩ ⟨0, none⟩ = ⟨0, some insufficientInputErr, 0⟩ :=
  c6_insufficient_input rDn 4 ⟨none, 0, 0⟩ ⟨0, none⟩ rfl (by decide)
    (by simp only [framesInOf, wholeLen, rDn]; norm_num)

/-- C9: on an open adapter, an empty Write is a no-op returning
(0, success), and a non-empty input smaller than one whole frame fails
with the IncompleteFrame error and consumes 0 bytes. -/
theorem c9_empty_and_incomplete (r : Resampler) (plen : ℕ) (eng : EngineResp) (sink : SinkResp)
    (hopen : r.isOpen = true) :
    (plen = 0 → write r plen eng sink = ⟨0, none, 0⟩) ∧
    (0 < plen → plen < r.frameSize * r.channels →
      write r plen eng sink = ⟨0, some incompleteFrameErr, 0⟩) := by
  constructor
  · intro hp
    simp [write, hopen, hp]
  · intro h1 h2
    have hp : plen ≠ 0 := h1.ne'
    have hin : framesInOf r plen = 0 := by
      simp [framesInOf, wholeLen, Nat.mod_eq_of_lt h2]
    simp [write, hopen, hp, hin]

/-- Witness for C9 at the concrete stream adapter rSt: the empty write
is a no-op and a single byte fails with IncompleteFrame. -/
theorem c9_witness :
    (write rSt 0 ⟨none, 0, 0⟩ ⟨0, none⟩ = ⟨0, none, 0⟩) ∧
    (write rSt 1 ⟨none, 0, 0⟩ ⟨0, none⟩ = ⟨0, some incompleteFrameErr, 0⟩) :=
  ⟨(c9_empty_and_incomplete rSt 0 ⟨none, 0, 0⟩ ⟨0, none⟩ rfl).1 rfl,
    (c9_empty_and_incomplete rSt 1 ⟨none, 0, 0⟩ ⟨0, none⟩ rfl).2 (by decide) (by decide)⟩

/-- A flush oracle whose engine reports no error and no pending output. -/
def noFlushSteps : ℕ → FlushStep := fun _ => ⟨none, 0, none⟩

/-- A flush oracle whose engine reports an error on every call. -/
def failFlushSteps : ℕ → FlushStep := fun _ => ⟨some "flush failed", 0, none⟩

/-- On a closed adapter Write fails with the AdapterClosed error. -/
theorem write_closed (s : Resampler) (hs : s.isOpen = false)
    (plen : ℕ) (eng : EngineResp) (sink : SinkResp) :
    write s plen eng sink = ⟨0, some nilResamplerErr, 0⟩ := by
  simp [write, hs]

/-- On a closed adapter Reset fails with the AdapterClosed error and
does not clear the engine state. -/
theorem reset_closed (s : Resampler) (hs : s.isOpen = false)
    (w : ℕ) (steps2 : ℕ → FlushStep) :
    reset s w steps2 = ⟨some nilResamplerErr, s, false⟩ := by
  simp [reset, hs]

/-- On a closed adapter Close fails with the AdapterClosed error and
does not release the engine again. -/
theorem close_closed (s : Resampler) (hs : s.isOpen = false)
    (steps2 : ℕ → FlushStep) :
    close s steps2 = ⟨some nilResamplerErr, s, false⟩ := by
  simp [close, hs]

/-- C2: once Close succeeds on an open adapter, it has released the
engine, the adapter is Closed, and every later Write, Reset or Close
fails with the AdapterClosed error; in particular a second Close does
not release the engine again. -/
theorem c2_close_terminal (r : Resampler) (steps : ℕ → FlushStep) (hopen : r.isOpen = true) :
    (close r steps).released = true ∧
    (close r steps).st.isOpen = false ∧
    (∀ plen eng sink,
      write (close r steps).st plen eng sink = ⟨0, some nilResamplerErr, 0⟩) ∧
    (∀ w steps2,
      reset (close r steps).st w steps2 = ⟨some nilResamplerErr, (close r steps).st, false⟩) ∧
    (∀ steps2,
      close (close r steps).st steps2 = ⟨some nilResamplerErr, (close r steps).st, false⟩) := by
  have hst : (close r steps).st.isOpen = false := by simp [close, hopen]
  exact ⟨by simp [close, hopen], hst,
    fun plen eng sink => write_closed _ hst plen eng sink,
    fun w steps2 => reset_closed _ hst w steps2,
    fun steps2 => close_closed _ hst steps2⟩

/-- Witness for C2 at the concrete stream adapter rSt closed with an
empty flush. -/
theorem c2_witness :
    (close rSt noFlushSteps).released = true ∧
    (close rSt noFlushSteps).st.isOpen = false ∧
    (∀ plen eng sink,
      write (close rSt noFlushSteps).st plen eng sink = ⟨0, some nilResamplerErr, 0⟩) ∧
    (∀ w steps2,
      reset (close rSt noFlushSteps).st w steps2 =
        ⟨some nilResamplerErr, (close rSt noFlushSteps).st, false⟩) ∧
    (∀ steps2,
      close (close rSt noFlushSteps).st steps2 =
        ⟨some nilResamplerErr, (close rSt noFlushSteps).st, false⟩) :=
  c2_close_terminal rSt noFlushSteps rfl

/-- C8: on an open stream-mode adapter whose flush reports an error,
Reset returns that error yet still replaces the destination, still
clears the engine state, and leaves the adapter Open: an empty Write
afterwards succeeds and a later Reset again reaches the clearing path
instead of failing with AdapterClosed. -/
theorem c8_reset_flush_error (r : Resampler) (w : ℕ) (steps : ℕ → FlushStep)
    (hopen : r.isOpen = true) (hstream : r.stream = true)
    (hferr : (flush r steps).err ≠ none) :
    reset r w steps = ⟨(flush r steps).err, { r with dest := w }, true⟩ ∧
    (reset r w steps).err ≠ none ∧
    (reset r w steps).st.isOpen = true ∧
    (reset r w steps).st.dest = w ∧
    (reset r w steps).cleared = true ∧
    (∀ eng sink, write (reset r w steps).st 0 eng sink = ⟨0, none, 0⟩) ∧
    (∀ w2 steps2, (reset (reset r w steps).st w2 steps2).cleared = true) := by
  have hr : reset r w steps = ⟨(flush r steps).err, { r with dest := w }, true⟩ := by
    simp [reset, hopen, hstream]
  refine ⟨hr, ?_, ?_, ?_, ?_, ?_, ?_⟩
  · rw [hr]
    exact hferr
  · rw [hr]
    exact hopen
  · rw [hr]
  · rw [hr]
  · intro eng sink
    rw [hr]
    simp [write, hopen]
  · intro w2 steps2
    rw [hr]
    simp [reset, hopen]

/-- Witness for C8 at the concrete stream adapter rSt with a failing
flush and replacement destination 7. -/
theorem c8_witness :
    reset rSt 7 failFlushSteps =
      ⟨(flush rSt failFlushSteps).err, { rSt with dest := 7 }, true⟩ ∧
    (reset rSt 7 failFlushSteps).err ≠ none ∧
    (reset rSt 7 failFlushSteps).st.isOpen = true ∧
    (reset rSt 7 failFlushSteps).st.dest = 7 ∧
    (reset rSt 7 failFlushSteps).cleared = true ∧
    (∀ eng sink, write (reset rSt 7 failFlushSteps).st 0 eng sink = ⟨0, none, 0⟩) ∧
    (∀ w2 steps2, (reset (reset rSt 7 failFlushSteps).st w2 steps2).cleared = true) :=
  c8_reset_flush_error rSt 7 failFlushSteps rfl rfl (by decide)

/-- A flush oracle whose engine fills the whole 40960-frame buffer on
the first call and would produce 100 further frames on a second call. -/
def fullFlushSteps : ℕ → FlushStep := fun n =>
  if n = 0 then ⟨none, flushCap, none⟩ else ⟨none, 100, none⟩

/-- C3 is false on the code: even when the engine fills the entire
40960-frame flush buffer on the first call (and a second call would
yield 100 more frames, i.e. the engine still holds buffered output),
flush performs exactly one engine process call and forwards only the
first call's output, so it does not loop until the engine reports zero
additional frames. -/
theorem c3_counterexample :
    (fullFlushSteps 0).done = flushCap ∧
    (fullFlushSteps 1).done = 100 ∧
    (flush rSt fullFlushSteps).calls = 1 ∧
    (flush rSt fullFlushSteps).drainedBytes = flushCap * 2 := by
  refine ⟨rfl, rfl, rfl, rfl⟩

/-- C3 amended: a flush issues exactly one bounded-capacity engine
process call; when the engine reports no error it forwards exactly the
output of that single call to the sink and returns the sink's error.
It never calls the engine a second time, so output beyond the single
call is not drained by this flush. -/
theorem c3_amended_single_call (r : Resampler) (steps : ℕ → FlushStep)
    (heng : (steps 0).engErr = none) :
    (flush r steps).calls = 1 ∧
    (flush r steps).drainedBytes = (steps 0).done * r.channels * r.frameSize ∧
    (flush r steps).err = (steps 0).sinkErr := by
  simp [flush, heng]

/-- Witness for the amended C3 at the concrete stream adapter rSt with
the buffer-filling engine oracle. -/
theorem c3_amended_witness :
    (flush rSt fullFlushSteps).calls = 1 ∧
    (flush rSt fullFlushSteps).drainedBytes = (fullFlushSteps 0).done * rSt.channels * rSt.frameSize ∧
    (flush rSt fullFlushSteps).err = (fullFlushSteps 0).sinkErr :=
  c3_amended_single_call rSt fullFlushSteps rfl

/-- C4 is false on the code: quality 3 is outside the supported
discrete set {Quick, LowQ, MediumQ, HighQ, VeryHighQ} = {0, 1, 2, 4, 6}
yet New's validation accepts it (with otherwise valid parameters it
proceeds to engine allocation with the I16 frame size instead of
failing with the InvalidQuality error). -/
theorem c4_counterexample :
    newValidate false 16000 8000 2 3 3 = Except.ok 2 ∧
    ¬((3 : ℤ) = 0 ∨ (3 : ℤ) = 1 ∨ (3 : ℤ) = 2 ∨ (3 : ℤ) = 4 ∨ (3 : ℤ) = 6) :=
  ⟨rfl, by decide⟩

/-- C4 amended: with a present writer, positive rates and a nonzero
channel count, New fails with the InvalidQuality error exactly when the
quality value lies outside the contiguous range 0..6 (so the interior
non-preset values 3 and 5 are accepted). -/
theorem c4_amended (ir oR : ℚ) (ch fmt q : ℤ)
    (hir : 0 < ir) (hor : 0 < oR) (hch : ch ≠ 0) :
    newValidate false ir oR ch fmt q = Except.error "Invalid quality setting" ↔
      (q < 0 ∨ q > 6) := by
  have h1 : ¬(ir ≤ 0 ∨ oR ≤ 0) := by
    push_neg
    exact ⟨hir, hor⟩
  by_cases hq : q < 0 ∨ q > 6
  · simp [newValidate, h1, hch, hq]
  · have hval : newValidate false ir oR ch fmt q =
        (if fmt = 1 then .ok (64 / byteLen)
         else if fmt = 0 ∨ fmt = 2 then .ok (32 / byteLen)
         else if fmt = 3 then .ok (16 / byteLen)
         else .error "Invalid format setting") := by
      simp [newValidate, h1, hch, hq]
    rw [hval]
    constructor
    · intro h
      exfalso
      revert h
      split_ifs <;> simp
    · intro h
      exact absurd h hq

/-- Witness for the amended C4: quality 10 is rejected with the
InvalidQuality error. -/
theorem c4_amended_witness :
    newValidate false 16000 8000 2 3 10 = Except.error "Invalid quality setting" :=
  (c4_amended 16000 8000 2 3 10 (by norm_num) (by norm_num) (by decide)).mpr
    (by decide)

/-- C7 is false on the code for negative channel counts: with channel
count -1 (and otherwise valid parameters) New's validation passes and
the code proceeds to allocate the engine, instead of failing with the
InvalidChannelCount error. -/
theorem c7_counterexample :
    newValidate false 16000 8000 (-1) 3 2 = Except.ok 2 ∧ (-1 : ℤ) < 0 :=
  ⟨rfl, by decide⟩

/-- C7 amended: with a present writer and positive rates, New fails
with the InvalidChannelCount error exactly when the channel count is 0;
a negative channel count passes this check (and no engine-allocation
is avoided for it). -/
theorem c7_amended (ir oR : ℚ) (ch fmt q : ℤ)
    (hir : 0 < ir) (hor : 0 < oR) :
    newValidate false ir oR ch fmt q = Except.error "Invalid channels number" ↔
      ch = 0 := by
  have h1 : ¬(ir ≤ 0 ∨ oR ≤ 0) := by
    push_neg
    exact ⟨hir, hor⟩
  by_cases hch : ch = 0
  · simp [newValidate, h1, hch]
  · have hval : newValidate false ir oR ch fmt q =
        (if q < 0 ∨ q > 6 then .error "Invalid quality setting"
         else if fmt = 1 then .ok (64 / byteLen)
         else if fmt = 0 ∨ fmt = 2 then .ok (32 / byteLen)
         else if fmt = 3 then .ok (16 / byteLen)
         else .error "Invalid format setting") := by
      simp [newValidate, h1, hch]
    rw [hval]
    constructor
    · intro h
      exfalso
      revert h
      split_ifs <;> simp
    · intro h
      exact absurd h hch

/-- Witness for the amended C7: channel count 0 is rejected with the
InvalidChannelCount error. -/
theorem c7_amended_witness :
    newValidate false 16000 8000 0 3 2 = Except.error "Invalid channels number" :=
  (c7_amended 16000 8000 0 3 2 (by norm_num) (by norm_num)).mpr rfl

end Resample
